import Mathlib

/-
Verification of the real-time session layer of the JosePanero/backend
board-game server: the turn-state machine and player-lifecycle workflows of
src/app/routers/players.py, the turn-order validator of
src/app/models/models.py, and the connection-registry operations exercised by
src/tests/test_connections_manager.py. Persisted-store reads/writes and the
registry are threaded explicitly through the workflow functions; broadcasts
and collaborator calls are recorded as an ordered event trace.
-/

namespace Backend

/-- Lifecycle states of a match (src/app/models/enums.py, `MatchState`). -/
inductive MatchState
| WAITING
| STARTED
| FINISHED
deriving DecidableEq, Repr

/-- Modelled from the spec: the winning-reason vocabulary `ReasonWinning` is imported
by src/app/routers/players.py from app.models.enums, but its definition is not under
src/; spec section 6 fixes it as a fixed winning-reason vocabulary including at least
forfeit. -/
inductive ReasonWinning
| FORFEIT
deriving DecidableEq, Repr

/-- A row of the players table (src/app/models/models.py, `Players`): the fields the
session layer reads. -/
structure Players where
  id : Nat
  player_name : String
  is_owner : Bool
  turn_order : Int
  match_id : Option Nat
deriving DecidableEq, Repr

/-- A row of the matches table (src/app/models/models.py, `Matches`) together with the
current turn holder that src/app/routers/players.py reads as
`match.current_player_turn`. -/
structure Matches where
  id : Nat
  state : MatchState
  current_players : Int
  max_players : Nat
  current_player_turn : Int
deriving DecidableEq, Repr

/-- The persisted store as the session layer sees it: the matches and players tables. -/
structure DB where
  matches_ : List Matches
  players : List Players
deriving DecidableEq, Repr

/-- Modelled from the spec: record storage `findMatch(id)` (spec section 6);
`MatchService.get_match_by_id` is not under src/. Returns the match row with the given
id, if any. -/
def find_match (db : DB) (mid : Nat) : Option Matches :=
  db.matches_.find? (fun m => m.id == mid)

/-- Modelled from the spec: record storage `findPlayer(id)` (spec section 6);
`PlayerService.get_player_by_id` is not under src/. -/
def find_player (db : DB) (pid : Nat) : Option Players :=
  db.players.find? (fun p => p.id == pid)

/-- Modelled from the spec: record storage `listPlayersByMatch(id)` (spec section 6);
`PlayerService.get_players_by_match` is not under src/. -/
def get_players_by_match (db : DB) (mid : Nat) : List Players :=
  db.players.filter (fun p => p.match_id == some mid)

/-- Modelled from the spec: record storage `deletePlayer(id)` (spec section 6);
`PlayerService.delete_player` is not under src/. -/
def delete_player (db : DB) (pid : Nat) : DB :=
  { db with players := db.players.filter (fun p => p.id != pid) }

/-- Modelled from the spec: record storage `updateMatch(id, state, currentPlayers)`
(spec section 6); `MatchService.update_match` is not under src/. -/
def update_match (db : DB) (mid : Nat) (st : MatchState) (cur : Int) : DB :=
  { db with matches_ :=
      db.matches_.map (fun m =>
        if m.id == mid then { m with state := st, current_players := cur } else m) }

/-- Modelled from the spec: record storage `updateTurn(id, turn)` (spec section 6);
`MatchService.update_turn` is not under src/. -/
def update_turn (db : DB) (mid : Nat) (turn : Int) : DB :=
  { db with matches_ :=
      db.matches_.map (fun m =>
        if m.id == mid then { m with current_player_turn := turn } else m) }

/-- Modelled from the spec: `PlayerService.get_player_by_turn(turn_order, match_id)`
called by src/app/routers/players.py line 103 is not under src/; it looks up the
player of the match holding the given turn order. -/
def get_player_by_turn (db : DB) (turn : Int) (mid : Nat) : Option Players :=
  (get_players_by_match db mid).find? (fun p => p.turn_order == turn)

/-- Turn-order validator (src/app/models/models.py lines 97-101,
`Players.validate_turn_order`): rejects values below 1 or above 4, accepts anything
else, with no reference to the match or to other players. -/
def validate_turn_order (turn_order : Int) : Except String Int :=
  if turn_order < 1 ∨ turn_order > 4 then
    Except.error "Turn order is not valid: must be between 1 and 4"
  else Except.ok turn_order

/-- Modelled from the spec: the ConnectionRegistry (`app.connection_manager`) is not
under src/ (only src/tests/test_connections_manager.py exercises it); spec sections 3
and 4.1 fix its shape. `games` maps a match id to the player ids currently bound in
that session; `connections` is the set of anonymous channels, represented by channel
ids. -/
structure ConnectionManager where
  games : List (Nat × List Nat)
  connections : List Nat
deriving DecidableEq, Repr

/-- Errors of the connection registry, named as in
src/tests/test_connections_manager.py. -/
inductive ConnError
| GameConnectionDoesNotExist
| PlayerNotConnected
deriving DecidableEq, Repr

/-- Modelled from the spec: `unbind(matchId, playerId)` (spec section 4.1), the
registry operation the tests call `disconnect_player_from_game`: fails with
`GameConnectionDoesNotExist` when no session is open for the match and with
`PlayerNotConnected` when the player has no binding, otherwise removes the binding. -/
def disconnect_player_from_game (cm : ConnectionManager) (mid pid : Nat) :
    Except ConnError ConnectionManager :=
  match cm.games.find? (fun g => g.1 == mid) with
  | none => Except.error ConnError.GameConnectionDoesNotExist
  | some g =>
    if pid ∈ g.2 then
      let games1 :=
        cm.games.map (fun e => if e.1 == mid then (e.1, e.2.filter (fun x => x != pid)) else e)
      Except.ok { cm with games := games1 }
    else Except.error ConnError.PlayerNotConnected

/-- The guarded unbind of src/app/routers/players.py lines 61-65: a
`PlayerNotConnected` failure is swallowed and the registry is left as it was, while
`GameConnectionDoesNotExist` propagates to the caller. -/
def try_disconnect (cm : ConnectionManager) (mid pid : Nat) :
    Except ConnError ConnectionManager :=
  match disconnect_player_from_game cm mid pid with
  | Except.error ConnError.PlayerNotConnected => Except.ok cm
  | r => r

/-- Modelled from the spec: `addAnonymous(channel)` (spec section 4.1). -/
def add_anonymous_connection (cm : ConnectionManager) (c : Nat) : ConnectionManager :=
  { cm with connections := c :: cm.connections }

/-- Modelled from the spec: `removeAnonymous(channel)` (spec section 4.1) — removing a
channel that is absent is a no-op, not an error (the internal ValueError is handled,
per src/tests/test_connections_manager.py lines 162-177). -/
def remove_anonymous_connection (cm : ConnectionManager) (c : Nat) : ConnectionManager :=
  { cm with connections := cm.connections.filter (fun x => x != c) }

/-- Whether the registry currently holds a binding for the given player in the given
match's session. -/
def is_bound (cm : ConnectionManager) (mid pid : Nat) : Bool :=
  match cm.games.find? (fun g => g.1 == mid) with
  | none => false
  | some g => decide (pid ∈ g.2)

/-- The observable outbound actions of the lifecycle workflows, in the order the code
performs them: broadcasts (src/app/routers/players.py lines 27-30, 69-72, 127-135)
and the card-issuance collaborator calls (lines 121-125). -/
inductive Event
| playerLeft (name : String)
| winner (player_id : Nat) (reason : ReasonWinning)
| giveMovementCard (player_id : Nat)
| notifyMovementCard (player_id : Nat)
| notifyAllMovementsReceived (player_id : Nat) (match_id : Nat)
| giveShapeCard (player_id : Nat)
| broadcastEndTurn (current_player_name next_player_name : String) (next_player_turn : Int)
deriving DecidableEq, Repr

/-- The card-issuance collaborator calls of the end-turn workflow ("give next player a
movement card", "give next player a shape card"). -/
def isCardGrant : Event → Bool
| Event.giveMovementCard _ => true
| Event.giveShapeCard _ => true
| _ => false

/-- The END_PLAYER_TURN turn-advance broadcast. -/
def isEndTurnBroadcast : Event → Bool
| Event.broadcastEndTurn _ _ _ => true
| _ => false

/-- The errors the route layer raises (src/app/routers/players.py): each constructor
names the HTTPException detail it stands for. `NoResult` is the uncaught
NoResultFound of the next-player lookup, `IndexOutOfRange` the uncaught IndexError of
`players[0]` on an empty list. -/
inductive ApiError
| PlayerNotFound
| MatchNotFound
| PlayerNotInMatch
| OwnerCannotLeave
| NotPlayersTurn
| NoResult
| IndexOutOfRange
deriving DecidableEq, Repr

/-- The process state the leave workflow touches: the persisted store and the
process-wide connection registry. -/
structure AppState where
  db : DB
  manager : ConnectionManager
deriving DecidableEq, Repr

/-- Outcome of a leave request: the state at exit (mutations made before an exception
persist, as in the source, where each service call commits on its own), the
broadcasts made, and the error raised, if any. -/
structure LeaveResult where
  state : AppState
  events : List Event
  err : Option ApiError
deriving DecidableEq, Repr

/-- `playerWinner` (src/app/routers/players.py lines 17-33): takes the first player
row still recorded for the match, deletes it, marks the match FINISHED with 0
players, and broadcasts WINNER carrying the deleted player's id and the reason.
Returns none when no player row remains (`players[0]` raises IndexError). -/
def playerWinner (mid : Nat) (reason : ReasonWinning) (db : DB) :
    Option (DB × List Event) :=
  match get_players_by_match db mid with
  | [] => none
  | p :: _ =>
    let db1 := delete_player db p.id
    let db2 := update_match db1 mid MatchState.FINISHED 0
    some (db2, [Event.winner p.id reason])

/-- `leave_player` (src/app/routers/players.py lines 35-88). The lookups, the
not-in-match and owner-in-lobby guards, the deletion, the guarded unbind, the player
count update, the PLAYER_LEFT broadcast and the forfeit check are performed in source
order; `match_to_leave.current_players` read after the update (line 77) sees the
decremented value through the session's identity map. -/
def leave_player (player_id match_id : Nat) (s : AppState) : LeaveResult :=
  match find_player s.db player_id with
  | none => ⟨s, [], some ApiError.PlayerNotFound⟩
  | some player_to_delete =>
    match find_match s.db match_id with
    | none => ⟨s, [], some ApiError.MatchNotFound⟩
    | some match_to_leave =>
      if player_to_delete.match_id ≠ some match_id then
        ⟨s, [], some ApiError.PlayerNotInMatch⟩
      else if match_to_leave.state = MatchState.WAITING ∧ player_to_delete.is_owner = true then
        ⟨s, [], some ApiError.OwnerCannotLeave⟩
      else
        let db1 := delete_player s.db player_id
        match try_disconnect s.manager match_id player_id with
        | Except.error _ => ⟨⟨db1, s.manager⟩, [], some ApiError.MatchNotFound⟩
        | Except.ok mgr1 =>
          let db2 := update_match db1 match_id match_to_leave.state
            (match_to_leave.current_players - 1)
          if match_to_leave.current_players - 1 = 1 ∧
              match_to_leave.state = MatchState.STARTED then
            match playerWinner match_id ReasonWinning.FORFEIT db2 with
            | none =>
              ⟨⟨db2, mgr1⟩, [Event.playerLeft player_to_delete.player_name],
                some ApiError.IndexOutOfRange⟩
            | some (db3, evs2) =>
              ⟨⟨db3, mgr1⟩, Event.playerLeft player_to_delete.player_name :: evs2, none⟩
          else ⟨⟨db2, mgr1⟩, [Event.playerLeft player_to_delete.player_name], none⟩

/-- The turn value written by src/app/routers/players.py lines 98-101: 1 when the
current turn equals the player count (wrap after the last occupied seat), the
successor otherwise. -/
def next_turn (m : Matches) : Int :=
  if m.current_player_turn = m.current_players then 1 else m.current_player_turn + 1

/-- `end_turn_logic` (src/app/routers/players.py lines 91-105): the store after any
turn update, paired with the looked-up next player or the error raised. The
next-player lookup reads `match.current_player_turn` after the update, so it sees the
new turn through the session's identity map. -/
def end_turn_logic (player : Players) (m : Matches) (db : DB) :
    DB × Except ApiError Players :=
  if player.turn_order ≠ m.current_player_turn then
    (db, Except.error ApiError.NotPlayersTurn)
  else
    match get_player_by_turn (update_turn db m.id (next_turn m)) (next_turn m) m.id with
    | none => (update_turn db m.id (next_turn m), Except.error ApiError.NoResult)
    | some next_player => (update_turn db m.id (next_turn m), Except.ok next_player)

/-- Outcome of an end-turn request: the store at exit, the collaborator calls and
broadcasts made (in order), and the error raised, if any. -/
structure EndTurnResult where
  db : DB
  events : List Event
  err : Option ApiError
deriving DecidableEq, Repr

/-- `end_turn` (src/app/routers/players.py lines 108-135): after the lookups and
`end_turn_logic`, the movement-card grant, its notifications, and the shape-card
grant to the next player are performed, and only then the END_PLAYER_TURN broadcast;
the events record that source order. -/
def end_turn (match_id player_id : Nat) (db : DB) : EndTurnResult :=
  match find_player db player_id with
  | none => ⟨db, [], some ApiError.PlayerNotFound⟩
  | some player =>
    match find_match db match_id with
    | none => ⟨db, [], some ApiError.MatchNotFound⟩
    | some m =>
      match end_turn_logic player m db with
      | (db1, Except.error e) => ⟨db1, [], some e⟩
      | (db1, Except.ok next_player) =>
        ⟨db1,
          [Event.giveMovementCard player_id,
           Event.notifyMovementCard player_id,
           Event.notifyAllMovementsReceived player_id match_id,
           Event.giveShapeCard next_player.id,
           Event.broadcastEndTurn player.player_name next_player.player_name
             next_player.turn_order],
          none⟩

/-- Player fixture: the owner, seat 1. -/
def pA : Players := ⟨1, "ana", true, 1, some 1⟩

/-- Player fixture: a non-owner, seat 2. -/
def pB : Players := ⟨2, "ben", false, 2, some 1⟩

/-- Player fixture: a non-owner, seat 3. -/
def pC : Players := ⟨3, "cal", false, 3, some 1⟩

/-- Scenario fixture for the forfeit case: a STARTED 2-player match whose two players
are both connected. -/
def sForfeit : AppState :=
  ⟨⟨[⟨1, MatchState.STARTED, 2, 4, 1⟩], [pA, pB]⟩, ⟨[(1, [1, 2])], []⟩⟩

/-- Scenario fixture for a mid-game leave: a STARTED 3-player match, turn held by
seat 2, all three players connected. -/
def sThree : AppState :=
  ⟨⟨[⟨1, MatchState.STARTED, 3, 4, 2⟩], [pA, pB, pC]⟩, ⟨[(1, [1, 2, 3])], []⟩⟩

/-- Scenario fixture for the lobby: a WAITING 2-player match. -/
def sLobby : AppState :=
  ⟨⟨[⟨1, MatchState.WAITING, 2, 4, 1⟩], [pA, pB]⟩, ⟨[(1, [1, 2])], []⟩⟩

/-- Store fixture for end-turn: a STARTED 2-player match, turn held by seat 1. -/
def dbTwo : DB := ⟨[⟨1, MatchState.STARTED, 2, 4, 1⟩], [pA, pB]⟩

/-- Store fixture for end-turn wrap-around: a STARTED 4-player match, turn held by
seat 4. -/
def dbFour : DB :=
  ⟨[⟨1, MatchState.STARTED, 4, 4, 4⟩], [pA, pB, pC, ⟨4, "dan", false, 4, some 1⟩]⟩

/-- A match fixture whose seat capacity is 2, below the validator's fixed bound of 4. -/
def mTwoSeats : Matches := ⟨7, MatchState.WAITING, 1, 2, 1⟩

/-- Store fixture for the second rotation example: a STARTED 4-player match, turn
held by seat 2. -/
def dbFourAtTwo : DB :=
  ⟨[⟨1, MatchState.STARTED, 4, 4, 2⟩], [pA, pB, pC, ⟨4, "dan", false, 4, some 1⟩]⟩

/-- Finding by key after updating the entries with that key: the lookup returns the
updated entry, provided the update preserves the key. -/
theorem find?_map_update {α : Type} (idf : α → Nat) (upd : α → α)
    (hid : ∀ a, idf (upd a) = idf a) (l : List α) (mid : Nat) :
    (l.map (fun a => if idf a == mid then upd a else a)).find? (fun a => idf a == mid) =
      (l.find? (fun a => idf a == mid)).map upd := by
  rw [List.find?_map]
  have hp : ((fun a => idf a == mid) ∘ (fun a => if idf a == mid then upd a else a)) =
      (fun a => idf a == mid) := by
    funext a
    by_cases h : idf a = mid
    · simp [h, hid a]
    · simp [h]
  rw [hp]
  cases hf : l.find? (fun a => idf a == mid) with
  | none => rfl
  | some b =>
    have hb := List.find?_some hf
    have hb' : idf b = mid := by simpa using hb
    simp [hb']

/-- Deleting a player row leaves the matches table alone. -/
theorem find_match_delete_player (db : DB) (pid mid : Nat) :
    find_match (delete_player db pid) mid = find_match db mid := rfl

/-- `updateMatch` is visible to a subsequent lookup of the same match. -/
theorem find_match_update_match (db : DB) (mid : Nat) (st : MatchState) (cur : Int) :
    find_match (update_match db mid st cur) mid =
      (find_match db mid).map (fun m => { m with state := st, current_players := cur }) :=
  find?_map_update Matches.id
    (fun m => { m with state := st, current_players := cur }) (fun _ => rfl)
    db.matches_ mid

/-- `updateTurn` is visible to a subsequent lookup of the same match. -/
theorem find_match_update_turn (db : DB) (mid : Nat) (turn : Int) :
    find_match (update_turn db mid turn) mid =
      (find_match db mid).map (fun m => { m with current_player_turn := turn }) :=
  find?_map_update Matches.id
    (fun m => { m with current_player_turn := turn }) (fun _ => rfl)
    db.matches_ mid

/-- Updating a match row leaves the players table alone. -/
theorem get_players_by_match_update_match (db : DB) (mid : Nat) (st : MatchState)
    (cur : Int) (m2 : Nat) :
    get_players_by_match (update_match db mid st cur) m2 = get_players_by_match db m2 := rfl

/-- The two row filters commute: selecting a match's players after a deletion is
filtering the deleted id out of the match's players. -/
theorem filter_mid_filter_ne (l : List Players) (pid mid : Nat) :
    ((l.filter (fun p => p.id != pid)).filter (fun p => p.match_id == some mid)) =
      ((l.filter (fun p => p.match_id == some mid)).filter (fun p => p.id != pid)) := by
  induction l with
  | nil => rfl
  | cons p l ih =>
    cases h1 : (p.id != pid) <;> cases h2 : (p.match_id == some mid) <;>
      simp [List.filter_cons, h1, h2, ih]

/-- Deleting a player restricts the match's player list to the other ids. -/
theorem get_players_by_match_delete_player (db : DB) (pid mid : Nat) :
    get_players_by_match (delete_player db pid) mid =
      (get_players_by_match db mid).filter (fun p => p.id != pid) :=
  filter_mid_filter_ne db.players pid mid

/-- A lookup by id finds nothing among rows filtered to exclude that id. -/
theorem find?_beq_filter_bne (l : List Players) (pid : Nat) :
    (l.filter (fun p => p.id != pid)).find? (fun p => p.id == pid) = none := by
  induction l with
  | nil => rfl
  | cons p l ih =>
    by_cases h : p.id = pid
    · simp [List.filter_cons, h, ih]
    · simp [List.filter_cons, List.find?_cons, h, ih]

/-- Deleting a player hides it from subsequent lookups. -/
theorem find_player_delete_self (db : DB) (pid : Nat) :
    find_player (delete_player db pid) pid = none :=
  find?_beq_filter_bne db.players pid

/-- Updating a match row leaves player lookups alone. -/
theorem find_player_update_match (db : DB) (mid : Nat) (st : MatchState) (cur : Int)
    (pid : Nat) :
    find_player (update_match db mid st cur) pid = find_player db pid := rfl

/-- A list from which an id was filtered out no longer holds that id. -/
theorem not_mem_filter_self (l : List Nat) (pid : Nat) :
    pid ∉ l.filter (fun x => x != pid) := by
  intro hmem
  have hm := List.mem_filter.mp hmem
  simp at hm

/-- When a session is open for the match, the guarded unbind of
src/app/routers/players.py lines 61-65 succeeds and afterwards the player has no
binding in that session, whether or not they were bound. -/
theorem try_disconnect_ok (cm : ConnectionManager) (mid pid : Nat)
    (g0 : Nat × List Nat) (h : cm.games.find? (fun g => g.1 == mid) = some g0) :
    ∃ cm', try_disconnect cm mid pid = Except.ok cm' ∧ is_bound cm' mid pid = false := by
  by_cases hc : pid ∈ g0.2
  · refine ⟨{ cm with games := cm.games.map (fun e => if e.1 == mid then (e.1, e.2.filter (fun x => x != pid)) else e) }, ?_, ?_⟩
    · unfold try_disconnect disconnect_player_from_game
      rw [h]
      simp [hc]
    · unfold is_bound
      have hmap := find?_map_update (α := Nat × List Nat) Prod.fst
        (fun e => (e.1, e.2.filter (fun x => x != pid))) (fun _ => rfl) cm.games mid
      dsimp only
      simp only [hmap, h]
      simp [not_mem_filter_self g0.2 pid]
  · refine ⟨cm, ?_, ?_⟩
    · unfold try_disconnect disconnect_player_from_game
      rw [h]
      simp [hc]
    · unfold is_bound
      rw [h]
      simp only [decide_eq_false_iff_not]
      exact hc

/-- Removing an absent anonymous channel changes nothing. -/
theorem remove_anonymous_of_not_mem (cm : ConnectionManager) (c : Nat)
    (h : c ∉ cm.connections) : remove_anonymous_connection cm c = cm := by
  unfold remove_anonymous_connection
  have hfe : cm.connections.filter (fun x => x != c) = cm.connections := by
    apply List.filter_eq_self.mpr
    intro a ha
    have hac : a ≠ c := fun e => h (e ▸ ha)
    simpa using hac
  rw [hfe]

/-- Claim C6: an end-turn request by a player whose turn_order does not equal the
match's current_player_turn fails with NotPlayersTurn and leaves the store exactly as
it was — no turn update, no notification, no card issuance. -/
theorem C6_not_players_turn (db : DB) (mid pid : Nat) (p : Players) (m : Matches)
    (hfp : find_player db pid = some p)
    (hfm : find_match db mid = some m)
    (ht : p.turn_order ≠ m.current_player_turn) :
    end_turn mid pid db = ⟨db, [], some ApiError.NotPlayersTurn⟩ := by
  unfold end_turn end_turn_logic
  rw [hfp, hfm]
  simp [ht]

/-- Claim C6 witness: in a STARTED 2-player match whose turn is held by seat 1, an
end-turn by the seat-2 player fails with NotPlayersTurn and changes nothing. -/
theorem C6_not_players_turn_witness :
    end_turn 1 2 dbTwo = ⟨dbTwo, [], some ApiError.NotPlayersTurn⟩ :=
  C6_not_players_turn dbTwo 1 2 pB ⟨1, MatchState.STARTED, 2, 4, 1⟩ rfl rfl (by decide)

/-- Claim C7: a leave request by the owner of a WAITING match with more than one
player fails with OwnerCannotLeave: no player deleted, no count change, no unbind, no
notification. -/
theorem C7_owner_cannot_leave (s : AppState) (mid pid : Nat) (p : Players) (m : Matches)
    (hfp : find_player s.db pid = some p)
    (hfm : find_match s.db mid = some m)
    (hpm : p.match_id = some mid)
    (hw : m.state = MatchState.WAITING)
    (hown : p.is_owner = true)
    (hcp : m.current_players > 1) :
    leave_player pid mid s = ⟨s, [], some ApiError.OwnerCannotLeave⟩ := by
  unfold leave_player
  rw [hfp, hfm]
  simp [hpm, hw, hown]

/-- Claim C7 witness: the owner of a WAITING 2-player match cannot leave, and the
request mutates nothing. -/
theorem C7_owner_cannot_leave_witness :
    leave_player 1 1 sLobby = ⟨sLobby, [], some ApiError.OwnerCannotLeave⟩ :=
  C7_owner_cannot_leave sLobby 1 1 pA ⟨1, MatchState.WAITING, 2, 4, 1⟩
    rfl rfl rfl rfl rfl (by decide)

/-- Claim C8 counterexample: the validator accepts turn_order 3 although a match may
have max_players 2, so the accepted value does not lie in [1, max_players] of that
match; the validator never sees the match or the other players. -/
theorem C8_counterexample :
    validate_turn_order 3 = Except.ok 3 ∧
      ¬ ((3:Int) ≤ (mTwoSeats.max_players : Int)) := by
  exact ⟨rfl, by decide⟩

/-- Claim C8 (amended): `validate_turn_order` accepts exactly the values in the fixed
range [1, 4], independently of the match's max_players, and performs no uniqueness
check against the match's other players. -/
theorem C8_validator_fixed_range (t : Int) :
    validate_turn_order t = Except.ok t ↔ (1 ≤ t ∧ t ≤ 4) := by
  unfold validate_turn_order
  by_cases h : t < 1 ∨ t > 4
  · rw [if_pos h]
    constructor
    · intro he
      simp at he
    · intro hr
      exfalso
      omega
  · rw [if_neg h]
    constructor
    · intro _
      constructor <;> omega
    · intro _
      rfl

/-- Claim C8 witness: turn order 2 is accepted. -/
theorem C8_validator_fixed_range_witness :
    validate_turn_order 2 = Except.ok 2 :=
  (C8_validator_fixed_range 2).mpr (by decide)

/-- Claim C9: removing an anonymous channel that is not (or no longer) in the
anonymous set raises no error and leaves the set unchanged, and removing twice
behaves like removing once. -/
theorem C9_remove_anonymous_idempotent (cm : ConnectionManager) (c : Nat) :
    (c ∉ cm.connections → remove_anonymous_connection cm c = cm) ∧
      remove_anonymous_connection (remove_anonymous_connection cm c) c =
        remove_anonymous_connection cm c := by
  refine ⟨remove_anonymous_of_not_mem cm c, ?_⟩
  apply remove_anonymous_of_not_mem
  dsimp only [remove_anonymous_connection]
  exact not_mem_filter_self cm.connections c

/-- Claim C9 witness: removing channel 7 from a set holding only channel 5 is a
no-op, and a double removal of channel 5 equals a single removal. -/
theorem C9_remove_anonymous_idempotent_witness :
    (7 ∉ (⟨[], [5]⟩ : ConnectionManager).connections →
        remove_anonymous_connection ⟨[], [5]⟩ 7 = ⟨[], [5]⟩) ∧
      remove_anonymous_connection (remove_anonymous_connection ⟨[], [5]⟩ 7) 7 =
        remove_anonymous_connection ⟨[], [5]⟩ 7 :=
  C9_remove_anonymous_idempotent ⟨[], [5]⟩ 7

/-- Whatever the next-player lookup yields, the store leaving `end_turn_logic` on the
valid-turn path carries the updated turn. -/
theorem end_turn_logic_fst (p : Players) (m : Matches) (db : DB)
    (ht : p.turn_order = m.current_player_turn) :
    (end_turn_logic p m db).1 = update_turn db m.id (next_turn m) := by
  unfold end_turn_logic
  rw [if_neg (by simp [ht])]
  cases get_player_by_turn (update_turn db m.id (next_turn m)) (next_turn m) m.id <;> rfl

/-- Claim C3: a valid end-turn (acting player's turn_order equals
current_player_turn, match STARTED) sets current_player_turn to 1 when it equaled
current_players and to its successor otherwise — wrapping after the last occupied
seat, not after a fixed maximum of 4. -/
theorem C3_turn_rotation (db : DB) (p : Players) (m : Matches)
    (hfm : find_match db m.id = some m)
    (hst : m.state = MatchState.STARTED)
    (ht : p.turn_order = m.current_player_turn) :
    find_match (end_turn_logic p m db).1 m.id =
      some { m with current_player_turn :=
        if m.current_player_turn = m.current_players then 1
        else m.current_player_turn + 1 } := by
  rw [end_turn_logic_fst p m db ht, find_match_update_turn, hfm]
  rfl

/-- Claim C3 witness: with current_players = 4 and currentPlayerTurn = 4 a valid
end-turn by the seat-4 player stores turn 1, and with currentPlayerTurn = 2 and 4
players it stores turn 3. -/
theorem C3_turn_rotation_witness :
    find_match (end_turn_logic ⟨4, "dan", false, 4, some 1⟩
        ⟨1, MatchState.STARTED, 4, 4, 4⟩ dbFour).1 1 =
      some ⟨1, MatchState.STARTED, 4, 4, 1⟩ ∧
    find_match (end_turn_logic pB ⟨1, MatchState.STARTED, 4, 4, 2⟩ dbFourAtTwo).1 1 =
      some ⟨1, MatchState.STARTED, 4, 4, 3⟩ := by
  constructor
  · have h := C3_turn_rotation dbFour ⟨4, "dan", false, 4, some 1⟩
      ⟨1, MatchState.STARTED, 4, 4, 4⟩ rfl rfl rfl
    simpa using h
  · have h := C3_turn_rotation dbFourAtTwo pB ⟨1, MatchState.STARTED, 4, 4, 2⟩ rfl rfl rfl
    simpa using h

/-- A successful end-turn produces exactly the five-event trace of
src/app/routers/players.py lines 121-135, in source order, ending with the
END_PLAYER_TURN broadcast. -/
theorem end_turn_events_of_ok (mid pid : Nat) (db : DB)
    (h : (end_turn mid pid db).err = none) :
    ∃ (player next_player : Players), find_player db pid = some player ∧
      (end_turn mid pid db).events =
        [Event.giveMovementCard pid, Event.notifyMovementCard pid,
         Event.notifyAllMovementsReceived pid mid, Event.giveShapeCard next_player.id,
         Event.broadcastEndTurn player.player_name next_player.player_name
           next_player.turn_order] := by
  rcases hfp : find_player db pid with _ | player
  · unfold end_turn at h
    simp [hfp] at h
  · rcases hfm : find_match db mid with _ | m
    · unfold end_turn at h
      simp [hfp, hfm] at h
    · rcases hel : end_turn_logic player m db with ⟨db1, e⟩
      cases e with
      | error err =>
        unfold end_turn at h
        simp [hfp, hfm, hel] at h
      | ok np =>
        refine ⟨player, np, rfl, ?_⟩
        unfold end_turn
        simp only [hfp, hfm, hel]

/-- Claim C2 counterexample: in a successful end-turn the END_PLAYER_TURN broadcast
is the last event (index 4) while a card grant is already at index 0, so the
broadcast is not observable before the card grants. -/
theorem C2_counterexample :
    (end_turn 1 1 dbTwo).err = none ∧
      (end_turn 1 1 dbTwo).events.findIdx? isEndTurnBroadcast = some 4 ∧
      (end_turn 1 1 dbTwo).events.findIdx? isCardGrant = some 0 ∧
      ¬ (4 < 0) := by
  refine ⟨by decide, by decide, by decide, by decide⟩

/-- Claim C2 (amended): in every successful end-turn, the card-issuance collaborator
calls are made strictly before the END_PLAYER_TURN broadcast: every card-grant event
precedes every END_PLAYER_TURN event in the trace. -/
theorem C2_cards_before_broadcast (mid pid : Nat) (db : DB)
    (h : (end_turn mid pid db).err = none) (i j : Nat)
    (hg : (((end_turn mid pid db).events[i]?).any isCardGrant) = true)
    (hb : (((end_turn mid pid db).events[j]?).any isEndTurnBroadcast) = true) :
    i < j := by
  obtain ⟨player, np, _, hev⟩ := end_turn_events_of_ok mid pid db h
  rw [hev] at hg hb
  have hj4 : j = 4 := by
    rcases j with _ | _ | _ | _ | _ | j <;>
      simp [isEndTurnBroadcast, isCardGrant] at hb <;> rfl
  subst hj4
  rcases i with _ | _ | _ | _ | _ | i <;>
    simp [isEndTurnBroadcast, isCardGrant] at hg <;> omega

/-- Claim C2 witness: concretely, the movement-card grant sits at index 0 and the
broadcast at index 4, and the amended ordering holds there. -/
theorem C2_cards_before_broadcast_witness :
    (end_turn 1 1 dbTwo).err = none ∧ (0:Nat) < 4 :=
  ⟨by decide, C2_cards_before_broadcast 1 1 dbTwo (by decide) 0 4 (by decide) (by decide)⟩

/-- `playerWinner` on a match with exactly one remaining player row: deletes that
player, sets the match FINISHED with 0 players, and emits the WINNER broadcast with
the deleted player's id. -/
theorem playerWinner_single (mid : Nat) (r : ReasonWinning) (db : DB) (q : Players)
    (h : get_players_by_match db mid = [q]) :
    playerWinner mid r db =
      some (update_match (delete_player db q.id) mid MatchState.FINISHED 0,
        [Event.winner q.id r]) := by
  unfold playerWinner
  rw [h]

/-- The full outcome of `leave_player` on the forfeit path: a STARTED match with
current_players = 2, the departing player in the match, the unbind succeeding, and
exactly one player row remaining after the deletion. -/
theorem leave_player_forfeit_eq (s : AppState) (pid mid : Nat) (p q : Players)
    (m : Matches) (cm' : ConnectionManager)
    (hfp : find_player s.db pid = some p)
    (hfm : find_match s.db mid = some m)
    (hpm : p.match_id = some mid)
    (hst : m.state = MatchState.STARTED)
    (hc2 : m.current_players = 2)
    (htd : try_disconnect s.manager mid pid = Except.ok cm')
    (hrem : get_players_by_match (delete_player s.db pid) mid = [q]) :
    leave_player pid mid s =
      ⟨⟨update_match (delete_player (update_match (delete_player s.db pid) mid m.state 1) q.id) mid MatchState.FINISHED 0, cm'⟩,
        [Event.playerLeft p.player_name, Event.winner q.id ReasonWinning.FORFEIT],
        none⟩ := by
  have hsub : m.current_players - 1 = (1:Int) := by rw [hc2]; decide
  have hrem2 : get_players_by_match
      (update_match (delete_player s.db pid) mid m.state 1) mid = [q] := by
    rw [get_players_by_match_update_match]
    exact hrem
  unfold leave_player
  simp only [hfp, hfm]
  rw [if_neg (by simp [hpm])]
  rw [if_neg (by simp [hst])]
  simp only [htd, hsub]
  rw [if_pos ⟨trivial, hst⟩]
  rw [playerWinner_single mid ReasonWinning.FORFEIT _ q hrem2]

/-- The full outcome of `leave_player` on the ordinary STARTED path: more than one
other player remains, so no forfeit fires; the player row is deleted, the player
unbound, the count decremented, and PLAYER_LEFT broadcast. -/
theorem leave_player_started_eq (s : AppState) (pid mid : Nat) (p : Players)
    (m : Matches) (cm' : ConnectionManager)
    (hfp : find_player s.db pid = some p)
    (hfm : find_match s.db mid = some m)
    (hpm : p.match_id = some mid)
    (hst : m.state = MatchState.STARTED)
    (htd : try_disconnect s.manager mid pid = Except.ok cm')
    (hnf : m.current_players - 1 ≠ 1) :
    leave_player pid mid s =
      ⟨⟨update_match (delete_player s.db pid) mid m.state (m.current_players - 1), cm'⟩,
        [Event.playerLeft p.player_name], none⟩ := by
  unfold leave_player
  simp only [hfp, hfm]
  rw [if_neg (by simp [hpm])]
  rw [if_neg (by simp [hst])]
  simp only [htd]
  rw [if_neg (by intro hand; exact hnf hand.1)]

/-- Claim C1: a leave from a STARTED match with current_players = 2 by a non-owner
finishes the match with current_players = 0, broadcasts a WINNER notification naming
the remaining player with the FORFEIT reason, and unbinds the departing player from
the registry. -/
theorem C1_forfeit_win (s : AppState) (pid mid : Nat) (p q : Players) (m : Matches)
    (g0 : Nat × List Nat)
    (hfp : find_player s.db pid = some p)
    (hfm : find_match s.db mid = some m)
    (hpm : p.match_id = some mid)
    (hst : m.state = MatchState.STARTED)
    (hc2 : m.current_players = 2)
    (hown : p.is_owner = false)
    (hses : s.manager.games.find? (fun g => g.1 == mid) = some g0)
    (hrem : get_players_by_match (delete_player s.db pid) mid = [q]) :
    (leave_player pid mid s).err = none ∧
    (leave_player pid mid s).events =
      [Event.playerLeft p.player_name, Event.winner q.id ReasonWinning.FORFEIT] ∧
    (∃ m', find_match (leave_player pid mid s).state.db mid = some m' ∧
      m'.state = MatchState.FINISHED ∧ m'.current_players = 0) ∧
    is_bound (leave_player pid mid s).state.manager mid pid = false := by
  obtain ⟨cm', htd, hnb⟩ := try_disconnect_ok s.manager mid pid g0 hses
  have heq := leave_player_forfeit_eq s pid mid p q m cm' hfp hfm hpm hst hc2 htd hrem
  rw [heq]
  refine ⟨rfl, rfl, ?_, hnb⟩
  have hf : find_match (update_match (delete_player (update_match (delete_player s.db pid) mid m.state 1) q.id) mid MatchState.FINISHED 0) mid =
      some { m with state := MatchState.FINISHED, current_players := 0 } := by
    rw [find_match_update_match, find_match_delete_player, find_match_update_match,
      find_match_delete_player, hfm]
    rfl
  exact ⟨_, hf, rfl, rfl⟩

/-- Claim C1 witness: in the STARTED 2-player match, player 2 (not the owner) leaves;
the match ends FINISHED with 0 players, WINNER names player 1 with FORFEIT, and
player 2 is unbound. -/
theorem C1_forfeit_win_witness :
    (leave_player 2 1 sForfeit).err = none ∧
    (leave_player 2 1 sForfeit).events =
      [Event.playerLeft pB.player_name, Event.winner pA.id ReasonWinning.FORFEIT] ∧
    (∃ m', find_match (leave_player 2 1 sForfeit).state.db 1 = some m' ∧
      m'.state = MatchState.FINISHED ∧ m'.current_players = 0) ∧
    is_bound (leave_player 2 1 sForfeit).state.manager 1 2 = false :=
  C1_forfeit_win sForfeit 2 1 pB pA ⟨1, MatchState.STARTED, 2, 4, 1⟩ (1, [1, 2])
    rfl rfl rfl rfl rfl rfl rfl (by decide)

/-- Claim C10: on the forfeit path, `playerWinner` deletes the surviving player's
record too, before broadcasting WINNER: afterwards the match has zero persisted
player rows and the player_id carried in the WINNER payload refers to an
already-deleted player. -/
theorem C10_winner_deleted (s : AppState) (pid mid : Nat) (p q : Players) (m : Matches)
    (g0 : Nat × List Nat)
    (hfp : find_player s.db pid = some p)
    (hfm : find_match s.db mid = some m)
    (hpm : p.match_id = some mid)
    (hst : m.state = MatchState.STARTED)
    (hc2 : m.current_players = 2)
    (hses : s.manager.games.find? (fun g => g.1 == mid) = some g0)
    (hrem : get_players_by_match (delete_player s.db pid) mid = [q]) :
    (leave_player pid mid s).events =
      [Event.playerLeft p.player_name, Event.winner q.id ReasonWinning.FORFEIT] ∧
    get_players_by_match (leave_player pid mid s).state.db mid = [] ∧
    find_player (leave_player pid mid s).state.db q.id = none := by
  obtain ⟨cm', htd, _⟩ := try_disconnect_ok s.manager mid pid g0 hses
  have heq := leave_player_forfeit_eq s pid mid p q m cm' hfp hfm hpm hst hc2 htd hrem
  rw [heq]
  refine ⟨rfl, ?_, ?_⟩
  · rw [get_players_by_match_update_match, get_players_by_match_delete_player,
      get_players_by_match_update_match, hrem]
    simp
  · rw [show find_player (update_match (delete_player (update_match (delete_player s.db pid) mid m.state 1) q.id) mid MatchState.FINISHED 0) q.id = find_player (delete_player (update_match (delete_player s.db pid) mid m.state 1) q.id) q.id from rfl]
    exact find_player_delete_self _ q.id

/-- Claim C10 witness: concretely, after player 2's forfeit-triggering leave the
match has no player rows and the WINNER payload names the deleted player 1. -/
theorem C10_winner_deleted_witness :
    (leave_player 2 1 sForfeit).events =
      [Event.playerLeft pB.player_name, Event.winner pA.id ReasonWinning.FORFEIT] ∧
    get_players_by_match (leave_player 2 1 sForfeit).state.db 1 = [] ∧
    find_player (leave_player 2 1 sForfeit).state.db pA.id = none :=
  C10_winner_deleted sForfeit 2 1 pB pA ⟨1, MatchState.STARTED, 2, 4, 1⟩ (1, [1, 2])
    rfl rfl rfl rfl rfl rfl (by decide)

/-- Claim C4 counterexample: in a STARTED 3-player match with the turn held by
seat 2, player 2 leaves successfully; the claim requires the turn to have been
advanced per the end-turn rule (to 3) before the removal, but the stored
current_player_turn is still 2. -/
theorem C4_counterexample :
    (leave_player 2 1 sThree).err = none ∧
    (find_match (leave_player 2 1 sThree).state.db 1).map
      (fun m => m.current_player_turn) = some 2 ∧
    ¬ ((find_match (leave_player 2 1 sThree).state.db 1).map
      (fun m => m.current_player_turn) =
        some (if (2:Int) = 3 then 1 else 2 + 1)) := by
  refine ⟨by decide, by decide, by decide⟩

/-- Claim C4 (amended): a leave from a STARTED match with more than one other player
remaining reduces current_players by one, but never advances the turn:
current_player_turn is unchanged even when the departing player held it, and the
lifecycle state stays STARTED. -/
theorem C4_leave_keeps_turn (s : AppState) (pid mid : Nat) (p : Players) (m : Matches)
    (g0 : Nat × List Nat)
    (hfp : find_player s.db pid = some p)
    (hfm : find_match s.db mid = some m)
    (hpm : p.match_id = some mid)
    (hst : m.state = MatchState.STARTED)
    (hses : s.manager.games.find? (fun g => g.1 == mid) = some g0)
    (hnf : m.current_players ≠ 2) :
    (leave_player pid mid s).err = none ∧
    (∃ m', find_match (leave_player pid mid s).state.db mid = some m' ∧
      m'.current_players = m.current_players - 1 ∧
      m'.current_player_turn = m.current_player_turn ∧
      m'.state = m.state) := by
  obtain ⟨cm', htd, _⟩ := try_disconnect_ok s.manager mid pid g0 hses
  have hnf1 : m.current_players - 1 ≠ 1 := by omega
  have heq := leave_player_started_eq s pid mid p m cm' hfp hfm hpm hst htd hnf1
  rw [heq]
  refine ⟨rfl, ?_⟩
  have hf : find_match (update_match (delete_player s.db pid) mid m.state
      (m.current_players - 1)) mid =
      some { m with state := m.state, current_players := m.current_players - 1 } := by
    rw [find_match_update_match, find_match_delete_player, hfm]
    rfl
  exact ⟨_, hf, rfl, rfl, rfl⟩

/-- Claim C4 witness: in the STARTED 3-player match, player 2's leave succeeds, the
count drops from 3 to 2, and the turn and state are untouched. -/
theorem C4_leave_keeps_turn_witness :
    (leave_player 2 1 sThree).err = none ∧
    (∃ m', find_match (leave_player 2 1 sThree).state.db 1 = some m' ∧
      m'.current_players = (3:Int) - 1 ∧
      m'.current_player_turn = (2:Int) ∧
      m'.state = MatchState.STARTED) :=
  C4_leave_keeps_turn sThree 2 1 pB ⟨1, MatchState.STARTED, 3, 4, 2⟩ (1, [1, 2, 3])
    rfl rfl rfl rfl rfl (by decide)

/-- Claim C5 counterexample: after player 2 leaves the STARTED 3-player match, the
remaining players keep turn orders 1 and 3 while current_players is 2; the turn
orders are not the dense set 1..2. -/
theorem C5_counterexample :
    (leave_player 2 1 sThree).err = none ∧
    (get_players_by_match (leave_player 2 1 sThree).state.db 1).map
      (fun q => q.turn_order) = [1, 3] ∧
    (find_match (leave_player 2 1 sThree).state.db 1).map
      (fun m => m.current_players) = some 2 ∧
    ¬ (((1:Int) ≤ 1 ∧ (1:Int) ≤ 2) ∧ ((1:Int) ≤ 3 ∧ (3:Int) ≤ 2)) := by
  refine ⟨by decide, by decide, by decide, by decide⟩

/-- `playerWinner` only ever deletes a player row: the resulting players table is a
sublist of the one it was given. -/
theorem playerWinner_players_sublist (mid : Nat) (r : ReasonWinning) (db db' : DB)
    (evs : List Event) (h : playerWinner mid r db = some (db', evs)) :
    List.Sublist db'.players db.players := by
  unfold playerWinner at h
  rcases hg : get_players_by_match db mid with _ | ⟨w, rest⟩
  · rw [hg] at h
    simp at h
  · rw [hg] at h
    simp only [Option.some.injEq, Prod.mk.injEq] at h
    obtain ⟨h1, _⟩ := h
    rw [← h1]
    exact List.filter_sublist db.players

/-- Claim C5 (amended): no renumbering happens anywhere in the leave workflow — every
player row surviving a leave is one of the original rows, unchanged (the remaining
rows form a sublist of the original players table), so turn orders are left with
gaps after a removal. -/
theorem C5_no_renumbering (pid mid : Nat) (s : AppState) :
    List.Sublist ((leave_player pid mid s).state.db.players) s.db.players := by
  unfold leave_player
  split
  · exact List.Sublist.refl _
  · split
    · exact List.Sublist.refl _
    · split
      · exact List.Sublist.refl _
      · split
        · exact List.Sublist.refl _
        · split
          · exact List.filter_sublist s.db.players
          · split
            · dsimp only
              split
              · exact List.filter_sublist s.db.players
              · rename_i db3 evs2 hpw
                have h1 := playerWinner_players_sublist _ _ _ _ _ hpw
                exact h1.trans (List.filter_sublist s.db.players)
            · exact List.filter_sublist s.db.players

end Backend
